import Mathlib

/-!
Verification of the XMTP inbox key-check bot (`src/index.ts`).

The development shallowly embeds the single source file's dispatcher loop,
inline command classification, target resolution and report formatting as
executable Lean definitions, and proves the specification's claims about
them.  External collaborator calls (conversation lookup, sends, member
listing, address resolution, inbox-state query, key-package-status query)
are modelled by an `Env` record of functions returning `Except String α`
(`Except.error` models a thrown exception); the calls issued while
processing one message are recorded in an explicit trace.
-/

namespace KeyCheckBot

/-- Model of JavaScript `String.prototype.toLowerCase` at the character
level (structural, so proofs can evaluate it). -/
def jsToLowerCase (s : String) : String :=
  ⟨s.data.map Char.toLower⟩

/-- Model of JavaScript `String.prototype.trim`: strip whitespace from
both ends. -/
def jsTrim (s : String) : String :=
  ⟨((s.data.dropWhile Char.isWhitespace).reverse.dropWhile Char.isWhitespace).reverse⟩

/-- Model of JavaScript `String.prototype.startsWith`. -/
def jsStartsWith (s p : String) : Bool :=
  p.data.isPrefixOf s.data

/-- Accumulating tokenizer behind `jsSplitWs`: collect maximal runs of
non-whitespace characters. -/
def splitWsAux : List Char → List Char → List String
  | [], acc => if acc.isEmpty then [] else [⟨acc.reverse⟩]
  | c :: cs, acc =>
    if c.isWhitespace then
      if acc.isEmpty then splitWsAux cs [] else ⟨acc.reverse⟩ :: splitWsAux cs []
    else splitWsAux cs (c :: acc)

/-- Model of JavaScript `split(/\s+/)` applied to a trimmed string: the
maximal whitespace-separated words. -/
def jsSplitWs (s : String) : List String :=
  splitWsAux s.data []

/-- Model of JavaScript `substring(0, e)`: the first `e` characters. -/
def jsSubstringTo (s : String) (e : Nat) : String :=
  ⟨s.data.take e⟩

/-- Model of JavaScript `substring(b)`: drop the first `b` characters. -/
def jsSubstringFrom (s : String) (b : Nat) : String :=
  ⟨s.data.drop b⟩

/-- One entry of the key-package status mapping: `lifetime` (an object,
truthy in JS iff present) and `validationError` (a string, truthy in JS
iff present and non-empty), mirroring `KeyPackageStatus` as used at
`src/index.ts:181-214`. -/
structure KeyPackageStatus where
  lifetime : Option (Int × Int)
  validationError : Option String
  deriving DecidableEq, Repr

/-- JS truthiness of an optional string: `undefined` and `""` are falsy. -/
def truthyOpt : Option String → Bool
  | some s => s ≠ ""
  | none => false

/-- `value?.validationError` of `src/index.ts:188` for `value :
KeyPackageStatus | undefined`: optional chaining through the entry. -/
def chainedValidationError (v : Option KeyPackageStatus) : Option String :=
  v.bind (fun s => s.validationError)

/-- The filter predicate of `src/index.ts:187-189`: an entry is counted
valid iff `!value?.validationError`, i.e. iff the chained validation
error is JS-falsy (absent entry, absent error, or empty string). -/
def isCountedValid (v : Option KeyPackageStatus) : Bool :=
  !(truthyOpt (chainedValidationError v))

/-- `Object.keys(status).length` at `src/index.ts:186`; the mapping is
modelled as an association list in object iteration order. -/
def totalInstallations (status : List (String × Option KeyPackageStatus)) : Nat :=
  status.length

/-- `Object.values(status).filter((value) => !value?.validationError).length`
at `src/index.ts:187-189`. -/
def validInstallations (status : List (String × Option KeyPackageStatus)) : Nat :=
  (status.filter (fun e => isCountedValid e.2)).length

/-- `totalInstallations - validInstallations` at `src/index.ts:190`. -/
def invalidInstallations (status : List (String × Option KeyPackageStatus)) : Nat :=
  totalInstallations status - validInstallations status

/-- The abbreviation of `src/index.ts:196-198`: ids longer than 8
characters become first four, `"..."`, last four; shorter ids unchanged. -/
def shortId (id : String) : String :=
  if id.length > 8 then
    jsSubstringTo id 4 ++ "..." ++ jsSubstringFrom id (id.length - 4)
  else
    id

/-- Command kinds of the spec's `ParsedCommand`, derived from the inline
dispatch of `src/index.ts:65-160`. -/
inductive CmdKind where
  | Help | GroupId | Version | Members | KeyCheck | None
  deriving DecidableEq, Repr

/-- Target modes of the spec's `ParsedCommand`. -/
inductive TargetMode where
  | Self | ByInboxId | ByAddress
  deriving DecidableEq, Repr

/-- The spec's `ParsedCommand` record. -/
structure ParsedCommand where
  kind : CmdKind
  targetMode : TargetMode
  targetValue : Option String
  deriving DecidableEq, Repr

/-- `content.trim().split(/\s+/)` of `src/index.ts:72`: split the trimmed
content on runs of whitespace (on a trimmed string, splitting at each
whitespace character and dropping empty pieces coincides with splitting
on runs). -/
def tokens (content : String) : List String :=
  jsSplitWs (jsTrim content)

/-- The command classification of `src/index.ts:65-160`, extracted as the
spec's pure parser: unrecognized leading token → `None`; otherwise the
second token selects the subcommand, with `inboxid`/`address` requiring a
third token and everything else degrading to the self key-check. -/
def parse (content : String) : ParsedCommand :=
  let trimmed := jsTrim content
  if !(jsStartsWith trimmed "/key-check") && !(jsStartsWith trimmed "/kc") then
    ⟨CmdKind.None, TargetMode.Self, none⟩
  else
    let parts := tokens content
    let command := if parts.length > 1 then parts.getD 1 "" else ""
    if command == "help" then ⟨CmdKind.Help, TargetMode.Self, none⟩
    else if command == "groupid" then ⟨CmdKind.GroupId, TargetMode.Self, none⟩
    else if command == "version" then ⟨CmdKind.Version, TargetMode.Self, none⟩
    else if command == "members" then ⟨CmdKind.Members, TargetMode.Self, none⟩
    else if command == "inboxid" && parts.length > 2 then
      ⟨CmdKind.KeyCheck, TargetMode.ByInboxId, some (parts.getD 2 "")⟩
    else if command == "address" && parts.length > 2 then
      ⟨CmdKind.KeyCheck, TargetMode.ByAddress, some (parts.getD 2 "")⟩
    else ⟨CmdKind.KeyCheck, TargetMode.Self, none⟩

/-- An inbound stream message, with the fields `src/index.ts` reads:
sender inbox id, conversation id, content type id, text content. -/
structure Msg where
  senderInboxId : String
  conversationId : String
  contentTypeId : String
  content : String
  deriving DecidableEq, Repr

/-- One element of `inboxStateFromInboxIds`' result: the identifier
strings and the installation ids (`src/index.ts:173-178`). -/
structure InboxState where
  identifiers : List String
  installations : List String
  deriving DecidableEq, Repr

/-- A collaborator call issued while processing one message; traces of
these record the dispatcher's side effects. -/
inductive Call where
  | getConversationById (id : String)
  | send (text : String)
  | membersQuery
  | resolveAddress (addr : String)
  | inboxState (ids : List String) (forceRefresh : Bool)
  | keyPackageStatuses (ids : List String)
  deriving DecidableEq, Repr

/-- The external collaborator (XMTP client, conversation handle, date
formatting): each capability returns `Except String α`, where
`Except.error e` models the call throwing `e`. -/
structure Env where
  botInboxId : String
  sdkVersion : String
  getConversationById : String → Except String Bool
  send : String → Except String Unit
  membersQuery : String → Except String (List String)
  getInboxIdByIdentifier : String → Except String (Option String)
  inboxStateFromInboxIds : List String → Bool → Except String (List InboxState)
  getKeyPackageStatuses : List String → Except String (List (String × Option KeyPackageStatus))
  formatDate : Int → String

/-- Result of processing one stream message: the trace of collaborator
calls, and `some e` when an exception escaped the loop body uncaught
(which terminates the `for await` loop). -/
structure StepResult where
  trace : List Call
  fatal : Option String
  deriving Repr

/-- The help text of `src/index.ts:78-87`. -/
def helpText : String :=
  "Available commands:\n" ++
  "/key-check - Check key package status for the sender\n" ++
  "/key-check inboxid <INBOX_ID> - Check key package status for a specific inbox ID\n" ++
  "/key-check address <ADDRESS> - Check key package status for a specific address\n" ++
  "/key-check groupid - Show the current conversation ID\n" ++
  "/key-check members - List all members' inbox IDs in the current conversation\n" ++
  "/key-check version - Show XMTP SDK version information\n" ++
  "/key-check help - Show this help message\n" ++
  "Note: You can use /kc as a shorthand for all commands (e.g., /kc help)"

/-- The members listing of `src/index.ts:118-129`: each member line is
decorated with `~` for the bot's own inbox id, overridden by `*` for the
sender, followed by the legend. -/
def buildMembersList (botId senderId : String) (ms : List String) : String :=
  let body := ms.foldl (fun acc mid =>
    let isBot := jsToLowerCase mid == jsToLowerCase botId
    let marker := if isBot then "~" else " "
    let isSender := jsToLowerCase mid == jsToLowerCase senderId
    let marker := if isSender then "*" else marker
    acc ++ marker ++ mid ++ marker ++ "\n\n") "Group members:\n\n"
  body ++ "\n ~indicates key-check bot's inbox ID~" ++
    "\n *indicates who prompted the key-check command*"

/-- The per-installation block of `src/index.ts:200-214`: a `✅` block
with created/expiry dates when `lifetime` is truthy, otherwise a `❌`
block when `validationError` is truthy, otherwise nothing. -/
def renderEntry (env : Env) (installationId : String) (st : Option KeyPackageStatus) : String :=
  let sid := shortId installationId
  match st.bind (fun s => s.lifetime) with
  | some lt =>
    "✅ '" ++ sid ++ "':\n" ++
    "- created: " ++ env.formatDate (lt.1 * 1000) ++ "\n" ++
    "- valid until: " ++ env.formatDate (lt.2 * 1000) ++ "\n\n"
  | none =>
    if truthyOpt (chainedValidationError st) then
      "❌ '" ++ sid ++ "':\n" ++
      "- validationError: '" ++ (chainedValidationError st).getD "" ++ "'\n\n"
    else ""

/-- The summary text of `src/index.ts:193-215`: header with inbox id,
address and the three counts, then the per-entry blocks in mapping
order. -/
def summaryText (env : Env) (targetInboxId addr : String)
    (status : List (String × Option KeyPackageStatus)) : String :=
  let total := totalInstallations status
  let valid := validInstallations status
  let invalid := invalidInstallations status
  let header := "InboxID: \n\"" ++ targetInboxId ++ "\" \nAddress: \n\"" ++ addr ++
    "\" \n You have " ++ toString total ++ " installations, " ++ toString valid ++
    " of them are valid and " ++ toString invalid ++ " of them are invalid.\n\n"
  status.foldl (fun acc e => acc ++ renderEntry env e.1 e.2) header

/-- A send outside any `try` block (help, groupid, version, members
texts): a thrown send exception escapes the loop body. -/
def sendPlain (env : Env) (txt : String) : List Call × Option String :=
  match env.send txt with
  | Except.ok _ => ([Call.send txt], none)
  | Except.error e => ([Call.send txt], some e)

/-- The `catch` block of `src/index.ts:219-222`: report the caught error
into the conversation; only a failure of that report send itself escapes
uncaught. -/
def sendCaught (env : Env) (tr : List Call) (e : String) : List Call × Option String :=
  let txt := "Error processing key-check: " ++ e
  match env.send txt with
  | Except.ok _ => (tr ++ [Call.send txt], none)
  | Except.error e2 => (tr ++ [Call.send txt], some e2)

/-- Outcome of the address-resolution step: proceed with a resolved
target inbox id, or stop this message (possibly with an uncaught error). -/
inductive AddrOutcome where
  | proceed (target : String)
  | stopped (fatal : Option String)
  deriving Repr

/-- The `catch` block of `src/index.ts:155-159`: send the
resolution-error text; a failure of that send escapes uncaught. -/
def addrCatch (env : Env) (tr : List Call) (addr : String) : List Call × AddrOutcome :=
  let txt := "Error resolving address " ++ addr
  match env.send txt with
  | Except.ok _ => (tr ++ [Call.send txt], AddrOutcome.stopped none)
  | Except.error e2 => (tr ++ [Call.send txt], AddrOutcome.stopped (some e2))

/-- The `try` block of `src/index.ts:148-159`: resolve the address; no
inbox id → send the no-inbox text and stop; a thrown resolution or send
exception is caught by `addrCatch`. -/
def resolveAddressStep (env : Env) (addr : String) : List Call × AddrOutcome :=
  match env.getInboxIdByIdentifier addr with
  | Except.ok (some id) => ([Call.resolveAddress addr], AddrOutcome.proceed id)
  | Except.ok none =>
    let txt := "No inbox found for address " ++ addr
    match env.send txt with
    | Except.ok _ =>
      ([Call.resolveAddress addr, Call.send txt], AddrOutcome.stopped none)
    | Except.error _ =>
      addrCatch env [Call.resolveAddress addr, Call.send txt] addr
  | Except.error _ => addrCatch env [Call.resolveAddress addr] addr

/-- The `try` block of `src/index.ts:163-222`: query inbox state with
`forceRefresh = true`, extract address and installation ids, query
key-package statuses, send the summary; any exception inside goes
through `sendCaught`. -/
def keyCheckCore (env : Env) (target : String) : List Call × Option String :=
  let stCall := Call.inboxState [target] true
  match env.inboxStateFromInboxIds [target] true with
  | Except.error e => sendCaught env [stCall] e
  | Except.ok [] =>
    let txt := "No inbox state found for " ++ target
    match env.send txt with
    | Except.ok _ => ([stCall, Call.send txt], none)
    | Except.error e => sendCaught env [stCall, Call.send txt] e
  | Except.ok (st :: _) =>
    match st.identifiers with
    | [] =>
      sendCaught env [stCall] "Cannot read properties of undefined (reading 'identifier')"
    | addr :: _ =>
      let ids := st.installations
      match env.getKeyPackageStatuses ids with
      | Except.error e => sendCaught env [stCall, Call.keyPackageStatuses ids] e
      | Except.ok status =>
        let txt := summaryText env target addr status
        match env.send txt with
        | Except.ok _ => ([stCall, Call.keyPackageStatuses ids, Call.send txt], none)
        | Except.error e => sendCaught env [stCall, Call.keyPackageStatuses ids, Call.send txt] e

/-- Prepend the conversation-lookup call that precedes every handler. -/
def withConvCall (m : Msg) (r : List Call × Option String) : StepResult :=
  ⟨Call.getConversationById m.conversationId :: r.1, r.2⟩

/-- The members handler of `src/index.ts:109-134`: the member query and
both sends are outside any `try`, so their exceptions escape uncaught. -/
def handleMembers (env : Env) (m : Msg) : List Call × Option String :=
  match env.membersQuery m.conversationId with
  | Except.error e => ([Call.membersQuery], some e)
  | Except.ok ms =>
    if ms.isEmpty then
      let r := sendPlain env "No members found in this conversation."
      (Call.membersQuery :: r.1, r.2)
    else
      let r := sendPlain env (buildMembersList env.botInboxId m.senderInboxId ms)
      (Call.membersQuery :: r.1, r.2)

/-- The body of the `for await` loop (`src/index.ts:44-225`) for one
stream message: filter self/non-text messages, look up the conversation
(before any command check), classify the content, dispatch. -/
def processMessage (env : Env) (m : Msg) : StepResult :=
  if jsToLowerCase m.senderInboxId == jsToLowerCase env.botInboxId || m.contentTypeId != "text" then
    ⟨[], none⟩
  else
    match env.getConversationById m.conversationId with
    | Except.error e => ⟨[Call.getConversationById m.conversationId], some e⟩
    | Except.ok false => ⟨[Call.getConversationById m.conversationId], none⟩
    | Except.ok true =>
      let pc := parse m.content
      match pc.kind with
      | CmdKind.None => ⟨[Call.getConversationById m.conversationId], none⟩
      | CmdKind.Help => withConvCall m (sendPlain env helpText)
      | CmdKind.GroupId =>
        withConvCall m (sendPlain env ("Conversation ID: \"" ++ m.conversationId ++ "\""))
      | CmdKind.Version =>
        withConvCall m (sendPlain env ("XMTP node-sdk Version: " ++ env.sdkVersion))
      | CmdKind.Members => withConvCall m (handleMembers env m)
      | CmdKind.KeyCheck =>
        match pc.targetMode, pc.targetValue with
        | TargetMode.ByInboxId, some v => withConvCall m (keyCheckCore env v)
        | TargetMode.ByAddress, some a =>
          let r1 := resolveAddressStep env a
          match r1.2 with
          | AddrOutcome.stopped f => withConvCall m (r1.1, f)
          | AddrOutcome.proceed target =>
            let r2 := keyCheckCore env target
            withConvCall m (r1.1 ++ r2.1, r2.2)
        | _, _ => withConvCall m (keyCheckCore env m.senderInboxId)

/-- The dispatcher loop over a finite prefix of the stream: process
messages in order, stopping when an uncaught exception terminates the
`for await` loop; returns the per-message traces and the terminating
error, if any. -/
def runLoop (env : Env) : List Msg → List (List Call) × Option String
  | [] => ([], none)
  | m :: rest =>
    let r := processMessage env m
    match r.fatal with
    | some e => ([r.trace], some e)
    | none =>
      let rec' := runLoop env rest
      (r.trace :: rec'.1, rec'.2)

/-! ## Concrete fixtures for witnesses and counterexamples -/

/-- A collaborator in which every call succeeds: the conversation is
found, sends succeed, the target inbox has one state entry with two
installations, and the key-package query returns no status for any
installation. -/
def envOk : Env where
  botInboxId := "bot"
  sdkVersion := "1.0.0"
  getConversationById := fun _ => Except.ok true
  send := fun _ => Except.ok ()
  membersQuery := fun _ => Except.ok ["bot", "alice", "carol"]
  getInboxIdByIdentifier := fun _ => Except.ok none
  inboxStateFromInboxIds := fun _ _ =>
    Except.ok [⟨["0xAddr"], ["installation-one", "inst2"]⟩]
  getKeyPackageStatuses := fun ids => Except.ok (ids.map (fun i => (i, none)))
  formatDate := fun _ => "DATE"

/-- Like `envOk` but the conversation lookup throws. -/
def envConvErr : Env :=
  { envOk with getConversationById := fun _ => Except.error "boom" }

/-- Like `envOk` but address resolution and the inbox-state query throw:
every call the source wraps in a `try` fails. -/
def envInnerErr : Env :=
  { envOk with
      getInboxIdByIdentifier := fun _ => Except.error "resolvefail"
      inboxStateFromInboxIds := fun _ _ => Except.error "neterr"
      getKeyPackageStatuses := fun _ => Except.error "kperr" }

/-- A plain text message that is not a command. -/
def mHello : Msg := ⟨"alice", "c1", "text", "hello"⟩

/-- A bare self key-check command. -/
def mKc : Msg := ⟨"alice", "c1", "text", "/kc"⟩

/-- An address key-check command. -/
def mAddr : Msg := ⟨"alice", "c1", "text", "/key-check address 0xABCzzz"⟩

/-- A case variant of the shorthand command. -/
def mUpperKc : Msg := ⟨"alice", "c1", "text", "/KC help"⟩

/-- An `inboxid` subcommand with its argument missing. -/
def mInboxidNoArg : Msg := ⟨"alice", "c1", "text", "/key-check inboxid"⟩

/-! ## Helper lemmas -/

/-- An absent status entry passes the validity filter of
`src/index.ts:188`. -/
theorem isCountedValid_none : isCountedValid none = true := rfl

/-- The valid count never exceeds the total count. -/
theorem validInstallations_le (status : List (String × Option KeyPackageStatus)) :
    validInstallations status ≤ totalInstallations status :=
  List.length_filter_le _ status

/-- A non-self text message whose trimmed content starts with neither
recognized leading token parses to `None` and leaves only the
conversation-lookup call in the trace. -/
theorem unrecognized_skipped (env : Env) (m : Msg)
    (hSelf : (jsToLowerCase m.senderInboxId == jsToLowerCase env.botInboxId) = false)
    (hText : m.contentTypeId = "text")
    (h1 : jsStartsWith (jsTrim m.content) "/key-check" = false)
    (h2 : jsStartsWith (jsTrim m.content) "/kc" = false) :
    (parse m.content).kind = CmdKind.None ∧
    (processMessage env m).trace = [Call.getConversationById m.conversationId] := by
  have hparse : parse m.content = ⟨CmdKind.None, TargetMode.Self, none⟩ := by
    unfold parse
    simp [h1, h2]
  refine ⟨by rw [hparse], ?_⟩
  unfold processMessage
  rw [hSelf, hText]
  simp only [bne_self_eq_false, Bool.or_false, Bool.false_or, if_neg Bool.false_ne_true]
  cases henv : env.getConversationById m.conversationId with
  | error e => rfl
  | ok b =>
    cases b with
    | false => rfl
    | true => simp [hparse]

/-- A trace whose every inbox-state call sets the refresh flag. -/
def refreshOnly (tr : List Call) : Prop :=
  ∀ ids b, Call.inboxState ids b ∈ tr → b = true

theorem refreshOnly_nil : refreshOnly [] := by
  intro ids b h
  simp at h

theorem refreshOnly_append {t1 t2 : List Call}
    (h1 : refreshOnly t1) (h2 : refreshOnly t2) : refreshOnly (t1 ++ t2) := by
  intro ids b h
  rcases List.mem_append.mp h with h | h
  · exact h1 ids b h
  · exact h2 ids b h

theorem refreshOnly_cons (c : Call) (hc : ∀ ids b, c ≠ Call.inboxState ids b)
    {tr : List Call} (h : refreshOnly tr) : refreshOnly (c :: tr) := by
  intro ids b hmem
  rcases List.mem_cons.mp hmem with hmem | hmem
  · exact absurd hmem.symm (hc ids b)
  · exact h ids b hmem

theorem refreshOnly_send (t : String) : refreshOnly [Call.send t] :=
  refreshOnly_cons _ (fun _ _ h => Call.noConfusion h) refreshOnly_nil

theorem sendPlain_fst (env : Env) (t : String) :
    (sendPlain env t).1 = [Call.send t] := by
  unfold sendPlain
  cases env.send t <;> rfl

theorem sendCaught_fst (env : Env) (tr : List Call) (e : String) :
    (sendCaught env tr e).1 = tr ++ [Call.send ("Error processing key-check: " ++ e)] := by
  unfold sendCaught
  dsimp only
  cases env.send ("Error processing key-check: " ++ e) <;> rfl

theorem addrCatch_fst (env : Env) (tr : List Call) (a : String) :
    (addrCatch env tr a).1 = tr ++ [Call.send ("Error resolving address " ++ a)] := by
  unfold addrCatch
  dsimp only
  cases env.send ("Error resolving address " ++ a) <;> rfl

theorem refreshOnly_sendPlain (env : Env) (t : String) :
    refreshOnly (sendPlain env t).1 := by
  rw [sendPlain_fst]
  exact refreshOnly_send t

theorem refreshOnly_sendCaught (env : Env) {tr : List Call} (e : String)
    (h : refreshOnly tr) : refreshOnly (sendCaught env tr e).1 := by
  rw [sendCaught_fst]
  exact refreshOnly_append h (refreshOnly_send _)

theorem refreshOnly_addrCatch (env : Env) {tr : List Call} (a : String)
    (h : refreshOnly tr) : refreshOnly (addrCatch env tr a).1 := by
  rw [addrCatch_fst]
  exact refreshOnly_append h (refreshOnly_send _)

theorem refreshOnly_resolveAddressStep (env : Env) (a : String) :
    refreshOnly (resolveAddressStep env a).1 := by
  have hres : refreshOnly [Call.resolveAddress a] :=
    refreshOnly_cons _ (fun _ _ h => Call.noConfusion h) refreshOnly_nil
  have hres2 : refreshOnly [Call.resolveAddress a,
      Call.send ("No inbox found for address " ++ a)] :=
    refreshOnly_cons _ (fun _ _ h => Call.noConfusion h) (refreshOnly_send _)
  unfold resolveAddressStep
  cases env.getInboxIdByIdentifier a with
  | error e => exact refreshOnly_addrCatch env a hres
  | ok o =>
    cases o with
    | some id => exact hres
    | none =>
      dsimp only
      cases env.send ("No inbox found for address " ++ a) with
      | ok u => exact hres2
      | error e => exact refreshOnly_addrCatch env a hres2

theorem refreshOnly_stCall (target : String) (rest : List Call)
    (hrest : refreshOnly rest) : refreshOnly (Call.inboxState [target] true :: rest) := by
  intro ids b h
  rcases List.mem_cons.mp h with h | h
  · rw [Call.inboxState.injEq] at h
    exact h.2
  · exact hrest ids b h

theorem refreshOnly_keyCheckCore (env : Env) (target : String) :
    refreshOnly (keyCheckCore env target).1 := by
  unfold keyCheckCore
  dsimp only
  cases env.inboxStateFromInboxIds [target] true with
  | error e =>
    exact refreshOnly_sendCaught env e (refreshOnly_stCall target [] refreshOnly_nil)
  | ok l =>
    cases l with
    | nil =>
      dsimp only
      cases env.send ("No inbox state found for " ++ target) with
      | ok u => exact refreshOnly_stCall target _ (refreshOnly_send _)
      | error e =>
        exact refreshOnly_sendCaught env e (refreshOnly_stCall target _ (refreshOnly_send _))
    | cons st tl =>
      dsimp only
      cases hid : st.identifiers with
      | nil => exact refreshOnly_sendCaught env _ (refreshOnly_stCall target [] refreshOnly_nil)
      | cons addr tl2 =>
        have hkp : refreshOnly [Call.keyPackageStatuses st.installations] :=
          refreshOnly_cons _ (fun _ _ h => Call.noConfusion h) refreshOnly_nil
        dsimp only
        cases env.getKeyPackageStatuses st.installations with
        | error e => exact refreshOnly_sendCaught env e (refreshOnly_stCall target _ hkp)
        | ok status =>
          dsimp only
          cases env.send (summaryText env target addr status) with
          | ok u =>
            exact refreshOnly_stCall target _
              (refreshOnly_cons _ (fun _ _ h => Call.noConfusion h) (refreshOnly_send _))
          | error e =>
            exact refreshOnly_sendCaught env e (refreshOnly_stCall target _
              (refreshOnly_cons _ (fun _ _ h => Call.noConfusion h) (refreshOnly_send _)))

theorem refreshOnly_handleMembers (env : Env) (m : Msg) :
    refreshOnly (handleMembers env m).1 := by
  have hq : ∀ ids b, Call.membersQuery ≠ Call.inboxState ids b :=
    fun _ _ h => Call.noConfusion h
  unfold handleMembers
  cases env.membersQuery m.conversationId with
  | error e => exact refreshOnly_cons _ hq refreshOnly_nil
  | ok ms =>
    dsimp only
    cases ms.isEmpty
    · exact refreshOnly_cons _ hq (refreshOnly_sendPlain env _)
    · exact refreshOnly_cons _ hq (refreshOnly_sendPlain env _)

theorem refreshOnly_withConvCall (m : Msg) (r : List Call × Option String)
    (h : refreshOnly r.1) : refreshOnly (withConvCall m r).trace := by
  intro ids b hmem
  rcases List.mem_cons.mp hmem with hmem | hmem
  · exact absurd hmem (by simp)
  · exact h ids b hmem

/-! ### Fatal-error propagation helpers -/

theorem sendPlain_snd (env : Env) (t : String)
    (hSend : ∀ s, env.send s = Except.ok ()) : (sendPlain env t).2 = none := by
  unfold sendPlain
  rw [hSend]

theorem sendCaught_snd (env : Env) (tr : List Call) (e : String)
    (hSend : ∀ s, env.send s = Except.ok ()) : (sendCaught env tr e).2 = none := by
  unfold sendCaught
  dsimp only
  rw [hSend]

theorem addrCatch_snd (env : Env) (tr : List Call) (a : String)
    (hSend : ∀ s, env.send s = Except.ok ()) :
    (addrCatch env tr a).2 = AddrOutcome.stopped none := by
  unfold addrCatch
  dsimp only
  rw [hSend]

theorem resolveAddressStep_stopped_none (env : Env) (a : String)
    (hSend : ∀ s, env.send s = Except.ok ()) :
    ∀ f, (resolveAddressStep env a).2 = AddrOutcome.stopped f → f = none := by
  unfold resolveAddressStep
  cases env.getInboxIdByIdentifier a with
  | error e =>
    intro f hf
    rw [addrCatch_snd env _ a hSend] at hf
    injection hf with hf2
    exact hf2.symm
  | ok o =>
    cases o with
    | some id =>
      intro f hf
      exact AddrOutcome.noConfusion hf
    | none =>
      dsimp only
      rw [hSend]
      intro f hf
      injection hf with hf2
      exact hf2.symm

theorem keyCheckCore_snd (env : Env) (target : String)
    (hSend : ∀ s, env.send s = Except.ok ()) : (keyCheckCore env target).2 = none := by
  unfold keyCheckCore
  dsimp only
  cases env.inboxStateFromInboxIds [target] true with
  | error e => exact sendCaught_snd env _ e hSend
  | ok l =>
    cases l with
    | nil =>
      dsimp only
      rw [hSend]
    | cons st tl =>
      dsimp only
      cases st.identifiers with
      | nil => exact sendCaught_snd env _ _ hSend
      | cons addr tl2 =>
        dsimp only
        cases env.getKeyPackageStatuses st.installations with
        | error e => exact sendCaught_snd env _ e hSend
        | ok status =>
          dsimp only
          rw [hSend]

theorem handleMembers_snd (env : Env) (m : Msg)
    (hSend : ∀ s, env.send s = Except.ok ())
    (hMem : ∃ ms, env.membersQuery m.conversationId = Except.ok ms) :
    (handleMembers env m).2 = none := by
  obtain ⟨ms, hms⟩ := hMem
  unfold handleMembers
  rw [hms]
  dsimp only
  have hp : ∀ t, (sendPlain env t).2 = none := fun t => sendPlain_snd env t hSend
  cases ms.isEmpty <;> simp [hp]

theorem processMessage_fatal_none (env : Env) (m : Msg)
    (hSend : ∀ s, env.send s = Except.ok ())
    (hConv : ∀ cid, ∃ b, env.getConversationById cid = Except.ok b)
    (hMem : ∀ cid, ∃ ms, env.membersQuery cid = Except.ok ms) :
    (processMessage env m).fatal = none := by
  unfold processMessage
  split
  · rfl
  · obtain ⟨bb, hb⟩ := hConv m.conversationId
    rw [hb]
    cases bb with
    | false => rfl
    | true =>
      dsimp only
      cases (parse m.content).kind with
      | None => rfl
      | Help => exact sendPlain_snd env _ hSend
      | GroupId => exact sendPlain_snd env _ hSend
      | Version => exact sendPlain_snd env _ hSend
      | Members => exact handleMembers_snd env m hSend (hMem m.conversationId)
      | KeyCheck =>
        cases (parse m.content).targetMode with
        | ByInboxId =>
          cases (parse m.content).targetValue with
          | some v => exact keyCheckCore_snd env v hSend
          | none => exact keyCheckCore_snd env _ hSend
        | ByAddress =>
          cases (parse m.content).targetValue with
          | some a =>
            dsimp only
            cases hr : (resolveAddressStep env a).2 with
            | stopped f => exact resolveAddressStep_stopped_none env a hSend f hr
            | proceed target => exact keyCheckCore_snd env target hSend
          | none => exact keyCheckCore_snd env _ hSend
        | Self =>
          cases (parse m.content).targetValue with
          | some v => exact keyCheckCore_snd env _ hSend
          | none => exact keyCheckCore_snd env _ hSend

/-! ## Claims -/

/-- C1 counterexample: an error thrown by the conversation lookup of
`src/index.ts:52` (step 3, conversation resolution) is not caught — it
escapes the loop body and terminates the dispatcher loop, leaving the
second stream message unprocessed. -/
theorem conv_lookup_error_terminates_loop :
    (processMessage envConvErr mKc).fatal = some "boom" ∧
    (runLoop envConvErr [mKc, mAddr]).1.length = 1 ∧
    (runLoop envConvErr [mKc, mAddr]).2 = some "boom" := by decide

/-- C1 amended: only the collaborator calls the source wraps in `try`
are isolated per message — if sends, the conversation lookup, and the
member query never throw, then every message's processing completes
without an uncaught error and the loop handles the whole stream, no
matter how address resolution, the inbox-state query, or the
key-package query fail; errors from the lookup, the member query, or a
send itself are fatal to the loop (see the counterexample). -/
theorem caught_errors_resume_loop (env : Env)
    (hSend : ∀ s, env.send s = Except.ok ())
    (hConv : ∀ cid, ∃ b, env.getConversationById cid = Except.ok b)
    (hMem : ∀ cid, ∃ ms, env.membersQuery cid = Except.ok ms)
    (msgs : List Msg) :
    (runLoop env msgs).2 = none ∧ (runLoop env msgs).1.length = msgs.length := by
  induction msgs with
  | nil => exact ⟨rfl, rfl⟩
  | cons m rest ih =>
    unfold runLoop
    dsimp only
    rw [processMessage_fatal_none env m hSend hConv hMem]
    dsimp only
    exact ⟨ih.1, by simp [ih.2]⟩

/-- Witness for the amended C1: under a collaborator whose address
resolution, inbox-state and key-package queries all throw, a
three-message stream is still processed to the end. -/
theorem caught_errors_resume_loop_witness :
    (runLoop envInnerErr [mKc, mAddr, mHello]).2 = none ∧
    (runLoop envInnerErr [mKc, mAddr, mHello]).1.length = 3 :=
  caught_errors_resume_loop envInnerErr (fun _ => rfl) (fun _ => ⟨true, rfl⟩)
    (fun _ => ⟨["bot", "alice", "carol"], rfl⟩) [mKc, mAddr, mHello]

/-- C2 counterexample: for the non-command text message `"hello"` the
parse result is `None`, yet the dispatcher does issue a collaborator
call — the conversation lookup of `src/index.ts:52` runs before the
command check of `src/index.ts:65`, so the trace is not empty. -/
theorem nonCommand_still_calls_conversation_lookup :
    (parse "hello").kind = CmdKind.None ∧
    (processMessage envOk mHello).trace = [Call.getConversationById "c1"] ∧
    (processMessage envOk mHello).trace ≠ [] := by decide

/-- C2 amended: for every non-self text message whose trimmed content
starts with no recognized leading token, `parse` returns `None`, the
dispatcher sends nothing, and its only collaborator call is the single
conversation lookup issued before the command check. -/
theorem nonCommand_no_effect_beyond_lookup (env : Env) (m : Msg)
    (hSelf : (jsToLowerCase m.senderInboxId == jsToLowerCase env.botInboxId) = false)
    (hText : m.contentTypeId = "text")
    (h1 : jsStartsWith (jsTrim m.content) "/key-check" = false)
    (h2 : jsStartsWith (jsTrim m.content) "/kc" = false) :
    (parse m.content).kind = CmdKind.None ∧
    (processMessage env m).trace = [Call.getConversationById m.conversationId] ∧
    ∀ t, Call.send t ∉ (processMessage env m).trace := by
  obtain ⟨hk, htr⟩ := unrecognized_skipped env m hSelf hText h1 h2
  refine ⟨hk, htr, ?_⟩
  intro t hmem
  rw [htr] at hmem
  simp at hmem

/-- Witness for the amended C2 at the concrete message `"hello"`. -/
theorem nonCommand_no_effect_beyond_lookup_witness :
    (parse "hello").kind = CmdKind.None ∧
    (processMessage envOk mHello).trace = [Call.getConversationById "c1"] ∧
    ∀ t, Call.send t ∉ (processMessage envOk mHello).trace :=
  nonCommand_no_effect_beyond_lookup envOk mHello (by decide) rfl (by decide) (by decide)

/-- C9: recognition of the leading token is case-sensitive — a message
whose lowercased trimmed content starts with a recognized token, while
its actual content does not, parses to `None` and is skipped with no
sends (only the conversation lookup that precedes the check). -/
theorem case_variant_command_skipped (env : Env) (m : Msg)
    (hSelf : (jsToLowerCase m.senderInboxId == jsToLowerCase env.botInboxId) = false)
    (hText : m.contentTypeId = "text")
    (hVariant : (jsStartsWith (jsToLowerCase (jsTrim m.content)) "/key-check" ||
      jsStartsWith (jsToLowerCase (jsTrim m.content)) "/kc") = true)
    (h1 : jsStartsWith (jsTrim m.content) "/key-check" = false)
    (h2 : jsStartsWith (jsTrim m.content) "/kc" = false) :
    (parse m.content).kind = CmdKind.None ∧
    (processMessage env m).trace = [Call.getConversationById m.conversationId] ∧
    ∀ t, Call.send t ∉ (processMessage env m).trace := by
  obtain ⟨hk, htr⟩ := unrecognized_skipped env m hSelf hText h1 h2
  refine ⟨hk, htr, ?_⟩
  intro t hmem
  rw [htr] at hmem
  simp at hmem

/-- Witness for C9 at the concrete message `"/KC help"`. -/
theorem case_variant_command_skipped_witness :
    (parse "/KC help").kind = CmdKind.None ∧
    (processMessage envOk mUpperKc).trace = [Call.getConversationById "c1"] ∧
    ∀ t, Call.send t ∉ (processMessage envOk mUpperKc).trace :=
  case_variant_command_skipped envOk mUpperKc (by decide) rfl (by decide)
    (by decide) (by decide)

/-- C4: for every status mapping, the counts of `src/index.ts:186-190`
satisfy `validCount + invalidCount = totalInstallations`. -/
theorem counts_partition (status : List (String × Option KeyPackageStatus)) :
    validInstallations status + invalidInstallations status = totalInstallations status := by
  have h := validInstallations_le status
  unfold invalidInstallations
  omega

/-- C3: inserting an entry whose status is absent (`undefined`) anywhere
into the mapping increments `totalInstallations` and `validCount` and
leaves `invalidCount` unchanged: "no status returned" is counted valid
by the filter of `src/index.ts:187-190`. -/
theorem absent_status_counts_valid (pre post : List (String × Option KeyPackageStatus))
    (id : String) :
    totalInstallations (pre ++ (id, none) :: post) = totalInstallations (pre ++ post) + 1 ∧
    validInstallations (pre ++ (id, none) :: post) = validInstallations (pre ++ post) + 1 ∧
    invalidInstallations (pre ++ (id, none) :: post) = invalidInstallations (pre ++ post) := by
  have htot : totalInstallations (pre ++ (id, none) :: post)
      = totalInstallations (pre ++ post) + 1 := by
    simp [totalInstallations]
    omega
  have hval : validInstallations (pre ++ (id, none) :: post)
      = validInstallations (pre ++ post) + 1 := by
    simp [validInstallations, List.filter_append, List.filter_cons, isCountedValid_none]
    omega
  refine ⟨htot, hval, ?_⟩
  unfold invalidInstallations
  rw [htot, hval]
  omega

/-- C5: a recognized command whose second token is `inboxid` or
`address` but which has no third token parses as the default self
key-check (no error, no usage message), and the dispatcher then runs the
key-check core on the sender's own inbox id. -/
theorem missing_target_arg_falls_back_to_self (content : String)
    (hRecog : (jsStartsWith (jsTrim content) "/key-check" ||
      jsStartsWith (jsTrim content) "/kc") = true)
    (hCmd : (tokens content).getD 1 "" = "inboxid" ∨ (tokens content).getD 1 "" = "address")
    (hLen : (tokens content).length ≤ 2) :
    parse content = ⟨CmdKind.KeyCheck, TargetMode.Self, none⟩ ∧
    ∀ (env : Env) (m : Msg), m.content = content →
      (jsToLowerCase m.senderInboxId == jsToLowerCase env.botInboxId) = false →
      m.contentTypeId = "text" →
      env.getConversationById m.conversationId = Except.ok true →
      processMessage env m = withConvCall m (keyCheckCore env m.senderInboxId) := by
  have hparse : parse content = ⟨CmdKind.KeyCheck, TargetMode.Self, none⟩ := by
    have hcond : (!(jsStartsWith (jsTrim content) "/key-check") &&
        !(jsStartsWith (jsTrim content) "/kc")) = false := by
      cases hks : jsStartsWith (jsTrim content) "/key-check" <;>
        cases hkc : jsStartsWith (jsTrim content) "/kc" <;> simp_all
    have hgt : (tokens content).length > 1 := by
      by_contra hle
      have hd : (tokens content).getD 1 "" = "" :=
        List.getD_eq_default _ _ (by omega)
      rcases hCmd with h | h <;> rw [hd] at h <;> exact absurd h (by decide)
    have hng : (decide ((tokens content).length > 2)) = false := by
      simp
      omega
    unfold parse
    simp only [hcond, Bool.false_eq_true, if_false, if_pos hgt]
    rcases hCmd with h | h <;>
      simp only [List.getD, List.get?_eq_getElem?] at h <;> simp [h, hng]
  refine ⟨hparse, ?_⟩
  intro env m hc hSelf hText hConv
  unfold processMessage
  rw [hc, hSelf, hText]
  simp only [bne_self_eq_false, Bool.or_false, Bool.false_or, if_neg Bool.false_ne_true]
  rw [hConv, hparse]

/-- Witness for C5 at the concrete command `"/key-check inboxid"`. -/
theorem missing_target_arg_falls_back_to_self_witness :
    parse "/key-check inboxid" = ⟨CmdKind.KeyCheck, TargetMode.Self, none⟩ ∧
    processMessage envOk mInboxidNoArg = withConvCall mInboxidNoArg (keyCheckCore envOk "alice") :=
  have h := missing_target_arg_falls_back_to_self "/key-check inboxid"
    (by decide) (Or.inl (by decide)) (by decide)
  ⟨h.1, h.2 envOk mInboxidNoArg rfl (by decide) rfl rfl⟩

/-- C6: when an address key-check's resolution succeeds but yields no
inbox id, the dispatcher's whole effect after the conversation lookup is
the single send `"No inbox found for address <value>"`; in particular no
inbox-state query and no key-package query are issued for the message. -/
theorem address_without_inbox_stops (env : Env) (m : Msg) (a : String)
    (hSelf : (jsToLowerCase m.senderInboxId == jsToLowerCase env.botInboxId) = false)
    (hText : m.contentTypeId = "text")
    (hConv : env.getConversationById m.conversationId = Except.ok true)
    (hParse : parse m.content = ⟨CmdKind.KeyCheck, TargetMode.ByAddress, some a⟩)
    (hRes : env.getInboxIdByIdentifier a = Except.ok none)
    (hSend : env.send ("No inbox found for address " ++ a) = Except.ok ()) :
    processMessage env m =
      ⟨[Call.getConversationById m.conversationId, Call.resolveAddress a,
        Call.send ("No inbox found for address " ++ a)], none⟩ := by
  unfold processMessage
  rw [hSelf, hText]
  simp only [bne_self_eq_false, Bool.or_false, Bool.false_or, if_neg Bool.false_ne_true]
  rw [hConv, hParse]
  unfold resolveAddressStep
  simp only [hRes, hSend]
  rfl

/-- Witness for C6 at the concrete command
`"/key-check address 0xABCzzz"` under `envOk` (whose resolution returns
no inbox id). -/
theorem address_without_inbox_stops_witness :
    processMessage envOk mAddr =
      ⟨[Call.getConversationById "c1", Call.resolveAddress "0xABCzzz",
        Call.send ("No inbox found for address " ++ "0xABCzzz")], none⟩ :=
  address_without_inbox_stops envOk mAddr "0xABCzzz" (by decide) rfl rfl
    (by decide) rfl rfl

/-- C10: every inbox-state query the dispatcher ever issues carries
`forceRefresh = true`, mirroring the literal `true` argument at
`src/index.ts:164-166`; the cached variant is never called. -/
theorem inboxState_always_forceRefresh (env : Env) (m : Msg) (ids : List String) (b : Bool)
    (h : Call.inboxState ids b ∈ (processMessage env m).trace) : b = true := by
  revert h
  unfold processMessage
  split
  · intro h
    simp at h
  · cases env.getConversationById m.conversationId with
    | error e =>
      intro h
      simp at h
    | ok found =>
      cases found with
      | false =>
        intro h
        simp at h
      | true =>
        dsimp only
        cases (parse m.content).kind with
        | None =>
          intro h
          simp at h
        | Help => exact refreshOnly_withConvCall m _ (refreshOnly_sendPlain env _) ids b
        | GroupId => exact refreshOnly_withConvCall m _ (refreshOnly_sendPlain env _) ids b
        | Version => exact refreshOnly_withConvCall m _ (refreshOnly_sendPlain env _) ids b
        | Members => exact refreshOnly_withConvCall m _ (refreshOnly_handleMembers env m) ids b
        | KeyCheck =>
          cases (parse m.content).targetMode with
          | ByInboxId =>
            cases (parse m.content).targetValue with
            | some v => exact refreshOnly_withConvCall m _ (refreshOnly_keyCheckCore env v) ids b
            | none => exact refreshOnly_withConvCall m _ (refreshOnly_keyCheckCore env _) ids b
          | ByAddress =>
            cases (parse m.content).targetValue with
            | some a =>
              dsimp only
              cases (resolveAddressStep env a).2 with
              | stopped f =>
                exact refreshOnly_withConvCall m _
                  (refreshOnly_resolveAddressStep env a) ids b
              | proceed target =>
                exact refreshOnly_withConvCall m _
                  (refreshOnly_append (refreshOnly_resolveAddressStep env a)
                    (refreshOnly_keyCheckCore env target)) ids b
            | none => exact refreshOnly_withConvCall m _ (refreshOnly_keyCheckCore env _) ids b
          | Self =>
            cases (parse m.content).targetValue with
            | some v => exact refreshOnly_withConvCall m _ (refreshOnly_keyCheckCore env _) ids b
            | none => exact refreshOnly_withConvCall m _ (refreshOnly_keyCheckCore env _) ids b

/-- Witness for C10: the bare `"/kc"` command under `envOk` does issue
an inbox-state call, and the theorem applies to it. -/
theorem inboxState_always_forceRefresh_witness :
    Call.inboxState ["alice"] true ∈ (processMessage envOk mKc).trace ∧ true = true :=
  ⟨by decide, inboxState_always_forceRefresh envOk mKc ["alice"] true (by decide)⟩

/-- A string built by prefixing the valid-block opener starts with the
check-mark character. -/
theorem jsStartsWith_validBlock (s : String) : jsStartsWith ("✅ '" ++ s) "✅" = true := by
  unfold jsStartsWith
  rw [String.data_append]
  show List.isPrefixOf ['✅'] (['✅', ' ', '\''] ++ s.data) = true
  simp [List.isPrefixOf]

/-- C8: an entry carrying both a lifetime and a non-empty validation
error renders exactly like a purely valid entry — the `✅` block with
created/expiry dates of `src/index.ts:200-210`, the error text never
shown — while the counting of `src/index.ts:187-190` classifies the same
entry as invalid, so the per-entry display and the header counts
disagree. -/
theorem lifetime_with_error_renders_valid_but_counts_invalid (env : Env) (id : String)
    (nb na : Int) (e : String) (he : e ≠ "") :
    renderEntry env id (some ⟨some (nb, na), some e⟩) =
      renderEntry env id (some ⟨some (nb, na), none⟩) ∧
    jsStartsWith (renderEntry env id (some ⟨some (nb, na), some e⟩)) "✅" = true ∧
    isCountedValid (some ⟨some (nb, na), some e⟩) = false ∧
    validInstallations [(id, some ⟨some (nb, na), some e⟩)] = 0 ∧
    invalidInstallations [(id, some ⟨some (nb, na), some e⟩)] = 1 := by
  have hcv : isCountedValid (some ⟨some (nb, na), some e⟩) = false := by
    simp [isCountedValid, chainedValidationError, truthyOpt, he]
  refine ⟨rfl, ?_, hcv, ?_, ?_⟩
  · unfold renderEntry
    dsimp only
    exact jsStartsWith_validBlock _
  · simp [validInstallations, List.filter, hcv]
  · simp [invalidInstallations, totalInstallations, validInstallations, List.filter, hcv]

/-- Witness for C8 at a concrete entry with lifetime
`(1700000000, 1800000000)` and validation error `"bad signature"`. -/
theorem lifetime_with_error_witness :
    renderEntry envOk "installation-one" (some ⟨some (1700000000, 1800000000), some "bad signature"⟩) =
      renderEntry envOk "installation-one" (some ⟨some (1700000000, 1800000000), none⟩) ∧
    jsStartsWith (renderEntry envOk "installation-one"
      (some ⟨some (1700000000, 1800000000), some "bad signature"⟩)) "✅" = true ∧
    isCountedValid (some ⟨some (1700000000, 1800000000), some "bad signature"⟩) = false ∧
    validInstallations [("installation-one",
      some ⟨some (1700000000, 1800000000), some "bad signature"⟩)] = 0 ∧
    invalidInstallations [("installation-one",
      some ⟨some (1700000000, 1800000000), some "bad signature"⟩)] = 1 :=
  lifetime_with_error_renders_valid_but_counts_invalid envOk "installation-one"
    1700000000 1800000000 "bad signature" (by decide)

/-- Dropping the last `n` elements then reversing is the same as taking
`n` from the reversed list. -/
theorem drop_length_sub_eq_reverse_take (l : List Char) (n : Nat) :
    l.drop (l.length - n) = (l.reverse.take n).reverse := by
  rw [List.reverse_take]
  simp

/-- C7: the abbreviation of `src/index.ts:196-198` leaves ids of length
at most 8 unchanged, and turns a longer id into its first four
characters, `"..."`, then its last four characters. -/
theorem shortId_abbreviation (id : String) :
    (id.length ≤ 8 → shortId id = id) ∧
    (id.length > 8 →
      (shortId id).data =
        id.data.take 4 ++ ['.', '.', '.'] ++ (id.data.reverse.take 4).reverse) := by
  constructor
  · intro h
    unfold shortId
    rw [if_neg (by omega)]
  · intro h
    unfold shortId
    rw [if_pos h]
    rw [String.data_append, String.data_append]
    rw [← drop_length_sub_eq_reverse_take]
    rfl

/-- Witness for C7 at a 12-character id and an 8-character id. -/
theorem shortId_abbreviation_witness :
    shortId "abcdefgh" = "abcdefgh" ∧
    (shortId "abcdefghijkl").data =
      "abcdefghijkl".data.take 4 ++ ['.', '.', '.'] ++
        ("abcdefghijkl".data.reverse.take 4).reverse :=
  ⟨(shortId_abbreviation "abcdefgh").1 (by decide),
   (shortId_abbreviation "abcdefghijkl").2 (by decide)⟩

end KeyCheckBot
